import Mathlib

/-!
Verification development for the briink public-pages browser extension.

The service worker (`getConfig`, `testConnection`, `fetchPdf`,
`fetchPdfWithCache`, the `chrome.runtime.onMessage` listener and the
base64 helpers) and the sidebar (`base64ToArrayBuffer`, `goToPage`,
`zoomIn`, `zoomOut`, `fitWidth`) are embedded shallowly: byte buffers
are lists of naturals below 256, timestamps are integers, the browser
`fetch` is an explicit `Except` parameter (a thrown transport error or
an HTTP response), and `chrome.storage` reads are likewise an `Except`
parameter.  JavaScript string truthiness (empty string is falsy) is
modelled explicitly where the source relies on it.
-/

namespace Briink

/-- A fetched HTTP response, as the service worker observes it:
status, the `Content-Type` and `Content-Disposition` headers
(`headers.get` returns null when the header is absent), the body as
bytes (`response.arrayBuffer()`) and as text (`response.text()`). -/
structure HttpResponse where
  status : Nat
  contentType : Option String
  contentDisposition : Option String
  bodyBytes : List Nat
  bodyText : String
deriving DecidableEq, Repr

/-- The `response.ok` getter of the Fetch API: status in the range 200-299. -/
def respOk (r : HttpResponse) : Bool :=
  decide (200 ≤ r.status ∧ r.status < 300)

/-- `BriinkConfig` from `src/types/index.ts`: `workspaceId` is an
optional field, the rest are required. -/
structure BriinkConfig where
  apiKey : String
  apiBaseUrl : String
  workspaceId : Option String
  enabled : Bool
deriving DecidableEq, Repr

/-- `FetchPdfResponse` from `src/types/index.ts`: a success flag with
optional data, error and fileName fields. -/
structure FetchPdfResponse where
  success : Bool
  data : Option (List Nat)
  fileName : Option String
  error : Option String
deriving DecidableEq, Repr

/-- `TestConnectionResponse` from `src/types/index.ts`. -/
structure TestConnectionResponse where
  success : Bool
  error : Option String
deriving DecidableEq, Repr

/-- JavaScript truthiness of an optional string: `undefined`, `null`
and the empty string are falsy, every other string is truthy. -/
def jsTruthyStr (s : Option String) : Bool :=
  !(s.getD "").isEmpty

/-! ## Base64 (the platform `btoa` / `atob` pair)

`arrayBufferToBase64` builds a binary string with one character per
byte (`String.fromCharCode`) and calls `btoa`; `base64ToArrayBuffer`
calls `atob` and reads the bytes back with `charCodeAt`.  Since
`fromCharCode` and `charCodeAt` are mutually inverse on code points
below 256 the binary string is represented by the byte list itself,
and `btoa` / `atob` are modelled as standard Base64 with `=` padding
on byte lists. -/

/-- The 64-character Base64 alphabet. -/
def b64Alphabet : List Char :=
  "ABCDEFGHIJKLMNOPQRSTUVWXYZabcdefghijklmnopqrstuvwxyz0123456789+/".toList

/-- Index of a character in a list (0 when absent; `atob` only ever
sees alphabet characters on inputs produced by `btoa`). -/
def indexIn (c : Char) : List Char → Nat
  | [] => 0
  | a :: rest => if a = c then 0 else indexIn c rest + 1

/-- Encoding digit: the alphabet character of a sextet. -/
def sextetToChar (n : Nat) : Char := b64Alphabet.getD n 'A'

/-- Decoding digit: the sextet of an alphabet character. -/
def charToSextet (c : Char) : Nat := indexIn c b64Alphabet

/-- The platform `btoa` on a binary (byte-per-character) string:
groups of three bytes become four sextet characters; a trailing group
of one or two bytes is padded with `==` or `=`. -/
def btoa : List Nat → List Char
  | [] => []
  | [a] => [sextetToChar (a / 4), sextetToChar (a % 4 * 16), '=', '=']
  | [a, b] => [sextetToChar (a / 4), sextetToChar (a % 4 * 16 + b / 16),
      sextetToChar (b % 16 * 4), '=']
  | a :: b :: c :: rest =>
      sextetToChar (a / 4) :: sextetToChar (a % 4 * 16 + b / 16) ::
      sextetToChar (b % 16 * 4 + c / 64) :: sextetToChar (c % 64) :: btoa rest

/-- The platform `atob`: four characters yield three bytes, with a
final `=`-padded group yielding one or two. -/
def atob : List Char → List Nat
  | c1 :: c2 :: c3 :: c4 :: rest =>
      if c3 = '=' then
        [charToSextet c1 * 4 + charToSextet c2 / 16]
      else if c4 = '=' then
        [charToSextet c1 * 4 + charToSextet c2 / 16,
         charToSextet c2 % 16 * 16 + charToSextet c3 / 4]
      else
        (charToSextet c1 * 4 + charToSextet c2 / 16) ::
        (charToSextet c2 % 16 * 16 + charToSextet c3 / 4) ::
        (charToSextet c3 % 4 * 64 + charToSextet c4) ::
        atob rest
  | _ => []

/-- `arrayBufferToBase64` from the service worker: the byte-per-character
binary string built by the loop is the byte list itself. -/
def arrayBufferToBase64 (buffer : List Nat) : List Char := btoa buffer

/-- `base64ToArrayBuffer` from `Sidebar.svelte`: decode and read the
code points back into a byte buffer. -/
def base64ToArrayBuffer (base64 : List Char) : List Nat := atob base64

/-! ## Remote Fetch Client (`fetchPdf`) -/

/-- Boolean prefix test on character lists (argument order: the
string, then the pattern). -/
def listStarts : List Char → List Char → Bool
  | _, [] => true
  | [], _ :: _ => false
  | c :: cs, p :: ps => c = p && listStarts cs ps

/-- Substring containment on character lists. -/
def listIncludes : List Char → List Char → Bool
  | [], pat => pat.isEmpty
  | c :: rest, pat => listStarts (c :: rest) pat || listIncludes rest pat

/-- JavaScript `String.prototype.includes`. -/
def strIncludes (s sub : String) : Bool := listIncludes s.toList sub.toList

/-- JavaScript `text.substring(0, n)`. -/
def jsSubstring (s : String) (n : Nat) : String := (s.toList.take n).asString

/-- A character excluded by the capture class of the filename pattern
`filename="?([^";\n]+)"?`. -/
def fnameStop (c : Char) : Bool := c = '"' || c = ';' || c = '\n'

/-- Attempt the filename pattern at the head of the list: the literal
`filename=`, an optional opening quote, then one or more characters
outside the stop class (the regex cannot match here otherwise, since
backtracking the optional quote only re-offers a stop character to the
one-or-more class). -/
def fnameTryAt (s : List Char) : Option (List Char) :=
  if listStarts s ("filename=".toList) then
    let rest := s.drop 9
    let rest2 := match rest with
      | '"' :: r => r
      | r => r
    let cap := rest2.takeWhile (fun c => !fnameStop c)
    if cap.isEmpty then none else some cap
  else none

/-- First match of the filename pattern, scanning left to right as the
regex engine does. -/
def fnameFind : List Char → Option (List Char)
  | [] => none
  | c :: rest =>
    match fnameTryAt (c :: rest) with
    | some cap => some cap
    | none => fnameFind rest

/-- Filename extraction in `fetchPdf`: match the `Content-Disposition`
header against `filename="?([^";\n]+)"?`, defaulting to
`document.pdf` when the header is absent or the pattern fails. -/
def extractFileName (cd : Option String) : String :=
  match cd with
  | none => "document.pdf"
  | some s =>
    match fnameFind s.toList with
    | some cap => cap.asString
    | none => "document.pdf"

/-- `fetchPdf` from the service worker.  The network is the `net`
parameter: a thrown transport error (caught by the surrounding
`try`/`catch`, whose `err.message` is the string) or an `HttpResponse`.
The second component counts network requests issued (0 when the
workspace guard rejects before `fetch`, 1 otherwise). -/
def fetchPdf (fileId : String) (config : BriinkConfig)
    (net : Except String HttpResponse) : FetchPdfResponse × Nat :=
  if !jsTruthyStr config.workspaceId then
    (⟨false, none, none,
      some "Workspace ID is required. Please configure it in extension settings."⟩, 0)
  else
    match net with
    | .error msg => (⟨false, none, none, some msg⟩, 1)
    | .ok r =>
      if !respOk r then
        (⟨false, none, none,
          some ("Failed to fetch PDF: " ++ toString r.status ++ " - " ++ r.bodyText)⟩, 1)
      else if jsTruthyStr r.contentType
          && !strIncludes (r.contentType.getD "") "pdf"
          && !strIncludes (r.contentType.getD "") "octet-stream" then
        (⟨false, none, none,
          some ("Unexpected content type: " ++ r.contentType.getD "" ++ ". Response: "
            ++ jsSubstring r.bodyText 200)⟩, 1)
      else
        (⟨true, some r.bodyBytes, some (extractFileName r.contentDisposition), none⟩, 1)

/-! ## Document Cache and Fetch Coordinator -/

/-- One entry of `pdfCache`. -/
structure CacheEntry where
  data : List Nat
  fileName : String
  timestamp : Int
deriving DecidableEq, Repr

/-- The `pdfCache` map, as an insertion-ordered association list
(mirroring a JavaScript `Map`). -/
abbrev CacheMap := List (String × CacheEntry)

/-- `Map.prototype.get`. -/
def mapGet (m : CacheMap) (k : String) : Option CacheEntry :=
  match m with
  | [] => none
  | (k', v) :: rest => if k' = k then some v else mapGet rest k

/-- `Map.prototype.set`: update in place when the key exists,
otherwise append. -/
def mapSet (m : CacheMap) (k : String) (v : CacheEntry) : CacheMap :=
  match m with
  | [] => [(k, v)]
  | (k', v') :: rest => if k' = k then (k, v) :: rest else (k', v') :: mapSet rest k v

/-- `CACHE_TTL = 5 * 60 * 1000` milliseconds. -/
def CACHE_TTL : Int := 5 * 60 * 1000

/-- Result of one `fetchPdfWithCache` call: the response, the cache
after the call, and how many network requests were issued. -/
structure CoordOut where
  resp : FetchPdfResponse
  cache : CacheMap
  netCalls : Nat
deriving DecidableEq, Repr

/-- The cache-miss path of `fetchPdfWithCache`: delegate to `fetchPdf`
and, when it succeeds with data (`result.success && result.data`),
store the entry (timestamped now).  The source binds the fetch result
once (`const result`); the model repeats the pure application. -/
def fetchAndStore (fileId : String) (config : BriinkConfig) (cache : CacheMap)
    (now : Int) (net : Except String HttpResponse) : CoordOut :=
  if (fetchPdf fileId config net).1.success && (fetchPdf fileId config net).1.data.isSome then
    ⟨(fetchPdf fileId config net).1,
     mapSet cache fileId
       ⟨(fetchPdf fileId config net).1.data.getD [],
        (fetchPdf fileId config net).1.fileName.getD "document.pdf", now⟩,
     (fetchPdf fileId config net).2⟩
  else
    ⟨(fetchPdf fileId config net).1, cache, (fetchPdf fileId config net).2⟩

/-- `fetchPdfWithCache` from the service worker: return the cached
entry while it is younger than `CACHE_TTL`, otherwise fetch and store
on success.  `now` stands for `Date.now()`. -/
def fetchPdfWithCache (fileId : String) (config : BriinkConfig) (cache : CacheMap)
    (now : Int) (net : Except String HttpResponse) : CoordOut :=
  match mapGet cache fileId with
  | some cached =>
    if now - cached.timestamp < CACHE_TTL then
      ⟨⟨true, some cached.data, some cached.fileName, none⟩, cache, 0⟩
    else
      fetchAndStore fileId config cache now net
  | none => fetchAndStore fileId config cache now net

/-! ## Config Store and connection test -/

/-- `getConfig` from the service worker: read `briinkConfig` from
`chrome.storage.sync`; the `catch` branch maps any storage failure to
`null`, and a falsy stored value is also `null`.  The storage read is
the explicit `storage` parameter. -/
def getConfig (storage : Except String (Option BriinkConfig)) : Option BriinkConfig :=
  match storage with
  | .ok c => c
  | .error _ => none

/-- `testConnection` from the service worker: probe `/status`; `ok`
means success, otherwise report the status and body, and a thrown
transport error is caught into its message. -/
def testConnection (apiKey apiBaseUrl : String)
    (net : Except String HttpResponse) : TestConnectionResponse :=
  match net with
  | .error msg => ⟨false, some msg⟩
  | .ok r =>
    if respOk r then ⟨true, none⟩
    else ⟨false, some ("API returned " ++ toString r.status ++ ": " ++ r.bodyText)⟩

/-! ## Message Relay (the `chrome.runtime.onMessage` listener) -/

/-- An incoming runtime message, after the listener's `switch` on
`message.type` and the payload casts: the three handled kinds and a
catch-all for every other type string. -/
inductive Msg where
  | getConfigMsg
  | testConnectionMsg (apiKey apiBaseUrl : String)
  | fetchPdfMsg (fileId : String)
  | otherMsg (t : String)
deriving DecidableEq, Repr

/-- What `sendResponse` is called with: the config (or null) for
GET_CONFIG, a connection-test result, the base64 success payload for
FETCH_PDF, a `FetchPdfResponse` object sent as-is, or a bare
`{success:false, error}` object (unknown type / caught fault). -/
inductive SentResponse where
  | configResp (c : Option BriinkConfig)
  | testResp (r : TestConnectionResponse)
  | pdfOk (base64 : List Char) (fileName : Option String)
  | rawFetch (r : FetchPdfResponse)
  | errorResp (e : String)
deriving DecidableEq, Repr

/-- The listener's environment for one message: the storage read, the
network, the current cache, the clock, and an optional unexpected
fault thrown while handling (caught by the listener's `try`/`catch`,
whose `err.message` is the string). -/
structure Env where
  storage : Except String (Option BriinkConfig)
  net : Except String HttpResponse
  cache : CacheMap
  now : Int
  fault : Option String
deriving Repr

/-- Result of delivering one message: the single response sent, the
cache afterwards, and the number of network requests issued. -/
structure ListenerOut where
  resp : SentResponse
  cache : CacheMap
  netCalls : Nat
deriving DecidableEq, Repr

/-- The body of the listener's `switch`, fault-free: GET_CONFIG
responds with the stored config, TEST_CONNECTION probes the network,
FETCH_PDF guards on configuration (`!config || !config.apiKey`, then
`!config.enabled`) before delegating to `fetchPdfWithCache` and
base64-encoding a successful result, and any other type answers
`Unknown message type`. -/
def handleRequest (msg : Msg) (env : Env) : ListenerOut :=
  match msg with
  | .getConfigMsg => ⟨.configResp (getConfig env.storage), env.cache, 0⟩
  | .testConnectionMsg k u => ⟨.testResp (testConnection k u env.net), env.cache, 1⟩
  | .fetchPdfMsg fileId =>
    match getConfig env.storage with
    | none =>
      ⟨.rawFetch ⟨false, none, none,
        some "API key not configured. Please set up the extension."⟩, env.cache, 0⟩
    | some config =>
      if config.apiKey.isEmpty then
        ⟨.rawFetch ⟨false, none, none,
          some "API key not configured. Please set up the extension."⟩, env.cache, 0⟩
      else if !config.enabled then
        ⟨.rawFetch ⟨false, none, none, some "Extension is disabled"⟩, env.cache, 0⟩
      else
        let out := fetchPdfWithCache fileId config env.cache env.now env.net
        if out.resp.success && out.resp.data.isSome then
          ⟨.pdfOk (arrayBufferToBase64 (out.resp.data.getD [])) out.resp.fileName,
           out.cache, out.netCalls⟩
        else
          ⟨.rawFetch out.resp, out.cache, out.netCalls⟩
  | .otherMsg _ => ⟨.errorResp "Unknown message type", env.cache, 0⟩

/-- The listener, `try`/`catch` included: a fault thrown during
handling is converted into a `{success:false, error: message}`
response; the function is total, so exactly one response is sent per
message. -/
def onMessage (msg : Msg) (env : Env) : ListenerOut :=
  match env.fault with
  | some e => ⟨.errorResp e, env.cache, 0⟩
  | none => handleRequest msg env

/-! ## Presentation Surface (`Sidebar.svelte`) -/

/-- `goToPage`: `currentPage = Math.min(Math.max(1, pageNum), totalPages)`.
Page numbers are JavaScript numbers; out-of-range and negative
requests are integers here. -/
def goToPage (pageNum totalPages : Int) : Int :=
  min (max 1 pageNum) totalPages

/-- `zoomIn`: `scale = Math.min(scale + 0.25, 3.0)`.  Scale arithmetic
uses exact rationals. -/
def zoomIn (scale : ℚ) : ℚ := min (scale + 1/4) 3

/-- `zoomOut`: `scale = Math.max(scale - 0.25, 0.5)`. -/
def zoomOut (scale : ℚ) : ℚ := max (scale - 1/4) (1/2)

/-- `fitWidth`: `scale = (container.clientWidth - 32) / viewport.width`,
with no clamping applied. -/
def fitWidth (clientWidth pageWidth : ℚ) : ℚ := (clientWidth - 32) / pageWidth

/-! ## Concrete fixtures for witnesses and counterexamples -/

/-- A fully configured settings record. -/
def cfgSample : BriinkConfig := ⟨"k", "https://api.example.com", some "w", true⟩

/-- A successful PDF response. -/
def respPdf : HttpResponse :=
  ⟨200, some "application/pdf", some "filename=\"doc.pdf\"", [37, 80, 68, 70], "%PDF"⟩

/-- The 404 response of the spec scenario. -/
def resp404 : HttpResponse := ⟨404, none, none, [], "not found"⟩

/-- A success response whose Content-Type header is present but empty. -/
def respEmptyCT : HttpResponse := ⟨200, some "", none, [1, 2, 3], "body"⟩

/-- An environment whose storage holds no settings record. -/
def envNoConfig : Env := ⟨.ok none, .ok respPdf, [], 0, none⟩

/-- An environment whose storage read fails. -/
def envStorageFail : Env := ⟨.error "storage down", .ok respPdf, [], 0, none⟩

/-- An environment in which handling throws an unexpected fault. -/
def envFaulty : Env := ⟨.ok (some cfgSample), .ok respPdf, [], 0, some "boom"⟩

/-- A cache entry fetched at time 0. -/
def entryOld : CacheEntry := ⟨[9], "old.pdf", 0⟩

/-- A cache holding only `entryOld` for document `abc`. -/
def cacheOld : CacheMap := [("abc", entryOld)]

/-! ## Helper lemmas -/

theorem charToSextet_sextetToChar : ∀ n, n < 64 → charToSextet (sextetToChar n) = n := by
  decide

theorem sextetToChar_ne_pad : ∀ n, n < 64 → sextetToChar n ≠ '=' := by
  decide

theorem atob_btoa (l : List Nat) (h : ∀ x ∈ l, x < 256) : atob (btoa l) = l := by
  match l with
  | [] => rfl
  | [a] =>
    have ha : a < 256 := h a (by simp)
    have h1 := charToSextet_sextetToChar (a / 4) (by omega)
    have h2 := charToSextet_sextetToChar (a % 4 * 16) (by omega)
    simp [btoa, atob, h1, h2] <;> omega
  | [a, b] =>
    have ha : a < 256 := h a (by simp)
    have hb : b < 256 := h b (by simp)
    have hne := sextetToChar_ne_pad (b % 16 * 4) (by omega)
    have h1 := charToSextet_sextetToChar (a / 4) (by omega)
    have h2 := charToSextet_sextetToChar (a % 4 * 16 + b / 16) (by omega)
    have h3 := charToSextet_sextetToChar (b % 16 * 4) (by omega)
    simp [btoa, atob, hne, h1, h2, h3] <;> omega
  | a :: b :: c :: rest =>
    have ha : a < 256 := h a (by simp)
    have hb : b < 256 := h b (by simp)
    have hc : c < 256 := h c (by simp)
    have ih := atob_btoa rest (by intro x hx; exact h x (by simp [hx]))
    have hne3 := sextetToChar_ne_pad (b % 16 * 4 + c / 64) (by omega)
    have hne4 := sextetToChar_ne_pad (c % 64) (by omega)
    have h1 := charToSextet_sextetToChar (a / 4) (by omega)
    have h2 := charToSextet_sextetToChar (a % 4 * 16 + b / 16) (by omega)
    have h3 := charToSextet_sextetToChar (b % 16 * 4 + c / 64) (by omega)
    have h4 := charToSextet_sextetToChar (c % 64) (by omega)
    simp [btoa, atob, hne3, hne4, h1, h2, h3, h4, ih] <;> omega

theorem mapGet_mapSet_self (m : CacheMap) (k : String) (v : CacheEntry) :
    mapGet (mapSet m k v) k = some v := by
  induction m with
  | nil => simp [mapSet, mapGet]
  | cons p rest ih =>
    by_cases h : p.1 = k
    · simp [mapSet, mapGet, h]
    · simp only [mapSet, mapGet]
      rw [if_neg h, mapGet, if_neg h]
      exact ih

theorem fetchPdf_netCalls (fileId : String) (config : BriinkConfig)
    (net : Except String HttpResponse) (hw : jsTruthyStr config.workspaceId = true) :
    (fetchPdf fileId config net).2 = 1 := by
  unfold fetchPdf
  rw [hw]
  match net with
  | .error msg => rfl
  | .ok r =>
    simp only [Bool.not_true, Bool.false_eq_true, if_false]
    by_cases h1 : respOk r <;> by_cases h2 : jsTruthyStr r.contentType
        && !strIncludes (r.contentType.getD "") "pdf"
        && !strIncludes (r.contentType.getD "") "octet-stream" <;>
      simp [h1, h2]

theorem fetchPdf_success_shape (fileId : String) (config : BriinkConfig)
    (net : Except String HttpResponse)
    (h : (fetchPdf fileId config net).1.success = true) :
    ∃ d fn, (fetchPdf fileId config net).1 = ⟨true, some d, some fn, none⟩ := by
  by_cases hw : jsTruthyStr config.workspaceId = true
  · match net with
    | .error msg => simp [fetchPdf, hw] at h
    | .ok r =>
      by_cases hok : respOk r = true
      · by_cases hct : (jsTruthyStr r.contentType
            && !strIncludes (r.contentType.getD "") "pdf"
            && !strIncludes (r.contentType.getD "") "octet-stream") = true
        · simp [fetchPdf, hw, hok, hct] at h
        · exact ⟨r.bodyBytes, extractFileName r.contentDisposition, by
            simp [fetchPdf, hw, hok, hct]⟩
      · simp [fetchPdf, hw, hok] at h
  · simp [fetchPdf, hw] at h

theorem fetchAndStore_resp (fileId : String) (config : BriinkConfig) (cache : CacheMap)
    (now : Int) (net : Except String HttpResponse) :
    (fetchAndStore fileId config cache now net).resp = (fetchPdf fileId config net).1 := by
  unfold fetchAndStore
  split <;> rfl

theorem fetchAndStore_netCalls (fileId : String) (config : BriinkConfig) (cache : CacheMap)
    (now : Int) (net : Except String HttpResponse) :
    (fetchAndStore fileId config cache now net).netCalls = (fetchPdf fileId config net).2 := by
  unfold fetchAndStore
  split <;> rfl

theorem fetchAndStore_success (fileId : String) (config : BriinkConfig) (cache : CacheMap)
    (now : Int) (net : Except String HttpResponse)
    (h : (fetchAndStore fileId config cache now net).resp.success = true) :
    ∃ d fn, (fetchAndStore fileId config cache now net).resp = ⟨true, some d, some fn, none⟩ ∧
      (fetchAndStore fileId config cache now net).cache =
        mapSet cache fileId ⟨d, fn, now⟩ := by
  rw [fetchAndStore_resp] at h
  obtain ⟨d, fn, hs⟩ := fetchPdf_success_shape fileId config net h
  refine ⟨d, fn, ?_, ?_⟩
  · rw [fetchAndStore_resp]
    exact hs
  · unfold fetchAndStore
    rw [if_pos (by rw [hs]; rfl)]
    simp [hs]

/-! ## Claims -/

/-- C2: for every byte sequence, including the empty one, decoding the
relay's text-safe encoding on the receiving side reproduces the bytes
exactly: `base64ToArrayBuffer (arrayBufferToBase64 b) = b`. -/
theorem relay_base64_roundtrip (b : List Nat) (h : ∀ x ∈ b, x < 256) :
    base64ToArrayBuffer (arrayBufferToBase64 b) = b :=
  atob_btoa b h

theorem relay_base64_roundtrip_witness :
    base64ToArrayBuffer (arrayBufferToBase64 []) = [] ∧
      ((∀ x ∈ [0, 1, 77, 127, 128, 254, 255], x < 256) ∧
        base64ToArrayBuffer (arrayBufferToBase64 [0, 1, 77, 127, 128, 254, 255]) =
          [0, 1, 77, 127, 128, 254, 255]) :=
  ⟨relay_base64_roundtrip [] (by decide),
   by decide,
   relay_base64_roundtrip [0, 1, 77, 127, 128, 254, 255] (by decide)⟩

/-- C9: for a loaded document with `pageCount ≥ 1`, `goToPage` sets
the current page to `min (max 1 n) pageCount`, which always lies in
`[1, pageCount]`, for every requested `n` including 0, negatives and
values beyond `pageCount`. -/
theorem goToPage_clamps (n pageCount : Int) (h : 1 ≤ pageCount) :
    goToPage n pageCount = min (max 1 n) pageCount ∧
      1 ≤ goToPage n pageCount ∧ goToPage n pageCount ≤ pageCount := by
  unfold goToPage
  refine ⟨rfl, ?_, ?_⟩ <;> omega

theorem goToPage_clamps_witness :
    ((1 : Int) ≤ 5 ∧ goToPage 0 5 = min (max 1 0) 5 ∧ 1 ≤ goToPage 0 5 ∧ goToPage 0 5 ≤ 5) ∧
      ((1 : Int) ≤ 5 ∧ goToPage (-3) 5 = min (max 1 (-3)) 5 ∧
        1 ≤ goToPage (-3) 5 ∧ goToPage (-3) 5 ≤ 5) ∧
      ((1 : Int) ≤ 5 ∧ goToPage 9 5 = min (max 1 9) 5 ∧
        1 ≤ goToPage 9 5 ∧ goToPage 9 5 ≤ 5) :=
  ⟨⟨by decide, goToPage_clamps 0 5 (by decide)⟩,
   ⟨by decide, goToPage_clamps (-3) 5 (by decide)⟩,
   ⟨by decide, goToPage_clamps 9 5 (by decide)⟩⟩

/-- C8 counterexample: `fitWidth` sets the scale with no clamp, so the
claim that every operation that sets the scale keeps it in
`[0.5, 3.0]` fails: with a container of client width 3232 and a page
of native width 100, fit-to-width sets the scale to 32. -/
theorem zoom_clamp_counterexample :
    fitWidth 3232 100 = 32 ∧ ¬(fitWidth 3232 100 ≤ 3) := by
  constructor <;> norm_num [fitWidth]

/-- C8 amended: `zoomOut` never takes the scale below 0.5, `zoomIn`
never takes it above 3.0, repeated zoom-in at the maximum leaves the
scale at exactly 3.0, and both zoom steps preserve the range
`[0.5, 3.0]`; `fitWidth`, however, applies no clamp (see the
counterexample). -/
theorem zoom_clamp_amended (s : ℚ) :
    1/2 ≤ zoomOut s ∧ zoomIn s ≤ 3 ∧ zoomIn 3 = 3 ∧
      (1/2 ≤ s → s ≤ 3 → 1/2 ≤ zoomIn s ∧ zoomOut s ≤ 3) := by
  unfold zoomIn zoomOut
  refine ⟨le_max_right _ _, min_le_right _ _, by norm_num, fun h1 h2 => ⟨?_, ?_⟩⟩
  · exact le_min (by linarith) (by norm_num)
  · exact max_le (by linarith) (by norm_num)

theorem zoom_clamp_amended_witness :
    1/2 ≤ zoomOut 1 ∧ zoomIn 1 ≤ 3 ∧
      ((1 : ℚ)/2 ≤ 1 ∧ (1 : ℚ) ≤ 3 ∧ 1/2 ≤ zoomIn 1 ∧ zoomOut 1 ≤ 3) :=
  ⟨(zoom_clamp_amended 1).1, (zoom_clamp_amended 1).2.1, by norm_num, by norm_num,
   (zoom_clamp_amended 1).2.2.2 (by norm_num) (by norm_num)⟩

/-- C7: when the settings carry no workspace identifier (the field is
absent or the empty string, both falsy), `fetchPdf` fails with the
missing-workspace configuration error and issues no network request
(the result is the same for every state of the network, and the
request counter stays 0). -/
theorem fetchPdf_missing_workspace (fileId : String) (config : BriinkConfig)
    (net : Except String HttpResponse)
    (h : config.workspaceId = none ∨ config.workspaceId = some "") :
    fetchPdf fileId config net =
      (⟨false, none, none,
        some "Workspace ID is required. Please configure it in extension settings."⟩, 0) := by
  unfold fetchPdf
  have he : ("" : String).isEmpty = true := rfl
  rcases h with h | h <;> simp [jsTruthyStr, h, he]

theorem fetchPdf_missing_workspace_witness :
    ((⟨"k", "https://api.example.com", none, true⟩ : BriinkConfig).workspaceId = none ∨
      (⟨"k", "https://api.example.com", none, true⟩ : BriinkConfig).workspaceId = some "") ∧
      fetchPdf "abc" ⟨"k", "https://api.example.com", none, true⟩ (.ok respPdf) =
        (⟨false, none, none,
          some "Workspace ID is required. Please configure it in extension settings."⟩, 0) :=
  ⟨Or.inl rfl,
   fetchPdf_missing_workspace "abc" ⟨"k", "https://api.example.com", none, true⟩
     (.ok respPdf) (Or.inl rfl)⟩

/-- C5: when the remote HTTP response has a non-success status, the
result is a failure whose message is `Failed to fetch PDF: S - T`
(status and body text), exactly one network request is issued, and the
document cache is left unchanged (the call was a cache miss, since a
valid cached entry would have short-circuited before any response
existed). -/
theorem fetch_http_error (fileId : String) (config : BriinkConfig) (cache : CacheMap)
    (now : Int) (r : HttpResponse)
    (hw : jsTruthyStr config.workspaceId = true)
    (hok : respOk r = false)
    (hmiss : ∀ e, mapGet cache fileId = some e → ¬(now - e.timestamp < CACHE_TTL)) :
    fetchPdfWithCache fileId config cache now (.ok r) =
      ⟨⟨false, none, none,
        some ("Failed to fetch PDF: " ++ toString r.status ++ " - " ++ r.bodyText)⟩,
       cache, 1⟩ := by
  have hfp : fetchPdf fileId config (.ok r) =
      (⟨false, none, none,
        some ("Failed to fetch PDF: " ++ toString r.status ++ " - " ++ r.bodyText)⟩, 1) := by
    unfold fetchPdf
    simp [hw, hok]
  have hfs : fetchAndStore fileId config cache now (.ok r) =
      ⟨⟨false, none, none,
        some ("Failed to fetch PDF: " ++ toString r.status ++ " - " ++ r.bodyText)⟩,
       cache, 1⟩ := by
    unfold fetchAndStore
    rw [hfp]
    simp
  unfold fetchPdfWithCache
  cases hm : mapGet cache fileId with
  | none => simpa only [hm] using hfs
  | some e =>
    simp only [hm]
    rw [if_neg (hmiss e hm)]
    exact hfs

theorem fetch_http_error_witness :
    fetchPdfWithCache "abc" cfgSample [] 0 (.ok resp404) =
      ⟨⟨false, none, none, some "Failed to fetch PDF: 404 - not found"⟩, [], 1⟩ := by
  have h := fetch_http_error "abc" cfgSample [] 0 resp404 (by decide) (by decide)
    (fun e he => by simp [mapGet] at he)
  exact h.trans (by decide)

/-- C10 counterexample: a successful response whose Content-Type
header is present with the empty value is accepted by `fetchPdf`
(success) even though the empty value contains neither `pdf` nor
`octet-stream` — JavaScript truthiness skips the check for an empty
header value, so the claimed iff fails at this input. -/
theorem contentType_validation_counterexample :
    (fetchPdf "abc" cfgSample (.ok respEmptyCT)).1.success = true ∧
      respEmptyCT.contentType = some "" ∧
      respOk respEmptyCT = true ∧
      strIncludes "" "pdf" = false ∧ strIncludes "" "octet-stream" = false := by
  refine ⟨by decide, rfl, by decide, by decide, by decide⟩

/-- C10 amended: given a successful HTTP response and a configured
workspace, `fetchPdf` rejects (with the unexpected-content-type error
message) exactly when the Content-Type header is present with a
NON-EMPTY value containing neither `pdf` nor `octet-stream`; with no
Content-Type header at all the response is accepted and its body
returned with no content-type validation (and likewise for an empty
header value, per the counterexample). -/
theorem contentType_validation (fileId : String) (config : BriinkConfig) (r : HttpResponse)
    (hw : jsTruthyStr config.workspaceId = true) (hok : respOk r = true) :
    ((fetchPdf fileId config (.ok r)).1.success = false ↔
      jsTruthyStr r.contentType = true ∧
        strIncludes (r.contentType.getD "") "pdf" = false ∧
        strIncludes (r.contentType.getD "") "octet-stream" = false) ∧
    ((fetchPdf fileId config (.ok r)).1.success = false →
      (fetchPdf fileId config (.ok r)).1.error =
        some ("Unexpected content type: " ++ r.contentType.getD "" ++ ". Response: "
          ++ jsSubstring r.bodyText 200)) ∧
    (r.contentType = none →
      (fetchPdf fileId config (.ok r)).1 =
        ⟨true, some r.bodyBytes, some (extractFileName r.contentDisposition), none⟩) := by
  by_cases hct : (jsTruthyStr r.contentType
      && !strIncludes (r.contentType.getD "") "pdf"
      && !strIncludes (r.contentType.getD "") "octet-stream") = true
  · have h1 : (fetchPdf fileId config (.ok r)).1 =
        ⟨false, none, none,
         some ("Unexpected content type: " ++ r.contentType.getD "" ++ ". Response: "
           ++ jsSubstring r.bodyText 200)⟩ := by
      unfold fetchPdf
      simp [hw, hok, hct]
    rw [h1]
    simp only [Bool.and_eq_true, Bool.not_eq_true'] at hct
    refine ⟨by simp [hct.1.1, hct.1.2, hct.2], fun _ => rfl, fun hn => ?_⟩
    · have := hct.1.1
      rw [hn] at this
      exact absurd this (by decide)
  · have h1 : (fetchPdf fileId config (.ok r)).1 =
        ⟨true, some r.bodyBytes, some (extractFileName r.contentDisposition), none⟩ := by
      unfold fetchPdf
      simp [hw, hok, hct]
    rw [h1]
    refine ⟨?_, by simp, fun _ => rfl⟩
    constructor
    · intro hfalse
      exact absurd hfalse (by simp)
    · rintro ⟨ha, hb, hc⟩
      simp [ha, hb, hc] at hct

theorem contentType_validation_witness :
    ((fetchPdf "abc" cfgSample (.ok respPdf)).1.success = false ↔
      jsTruthyStr respPdf.contentType = true ∧
        strIncludes (respPdf.contentType.getD "") "pdf" = false ∧
        strIncludes (respPdf.contentType.getD "") "octet-stream" = false) ∧
    ((fetchPdf "abc" cfgSample (.ok respPdf)).1.success = false →
      (fetchPdf "abc" cfgSample (.ok respPdf)).1.error =
        some ("Unexpected content type: " ++ respPdf.contentType.getD "" ++ ". Response: "
          ++ jsSubstring respPdf.bodyText 200)) ∧
    (respPdf.contentType = none →
      (fetchPdf "abc" cfgSample (.ok respPdf)).1 =
        ⟨true, some respPdf.bodyBytes, some (extractFileName respPdf.contentDisposition),
         none⟩) :=
  contentType_validation "abc" cfgSample respPdf (by decide) (by decide)

/-- C3: a FETCH_PDF request with no stored settings record, an unset
or empty credential, or `enabled = false` is answered with a failure
response, the cache is untouched, and no network request is issued. -/
theorem fetch_not_configured (env : Env) (fileId : String)
    (hf : env.fault = none)
    (h : getConfig env.storage = none ∨
      ∃ c, getConfig env.storage = some c ∧ (c.apiKey = "" ∨ c.enabled = false)) :
    ∃ err, onMessage (.fetchPdfMsg fileId) env =
      ⟨.rawFetch ⟨false, none, none, some err⟩, env.cache, 0⟩ := by
  unfold onMessage handleRequest
  rcases h with h | ⟨c, hc, hcase⟩
  · simp only [hf, h]
    exact ⟨_, rfl⟩
  · simp only [hf, hc]
    by_cases hk : c.apiKey.isEmpty = true
    · rw [if_pos hk]
      exact ⟨_, rfl⟩
    · rcases hcase with h1 | h1
      · rw [h1] at hk
        exact absurd rfl hk
      · rw [if_neg hk]
        refine ⟨"Extension is disabled", ?_⟩
        rw [h1]
        rfl

theorem fetch_not_configured_witness :
    (∃ err, onMessage (.fetchPdfMsg "abc") envNoConfig =
      ⟨.rawFetch ⟨false, none, none, some err⟩, envNoConfig.cache, 0⟩) ∧
    (∃ err, onMessage (.fetchPdfMsg "abc")
        ⟨.ok (some ⟨"k", "https://api.example.com", some "w", false⟩), .ok respPdf, [], 0, none⟩ =
      ⟨.rawFetch ⟨false, none, none, some err⟩, [], 0⟩) ∧
    (∃ err, onMessage (.fetchPdfMsg "abc")
        ⟨.ok (some ⟨"", "https://api.example.com", some "w", true⟩), .ok respPdf, [], 0, none⟩ =
      ⟨.rawFetch ⟨false, none, none, some err⟩, [], 0⟩) :=
  ⟨fetch_not_configured envNoConfig "abc" rfl (Or.inl rfl),
   fetch_not_configured
     ⟨.ok (some ⟨"k", "https://api.example.com", some "w", false⟩), .ok respPdf, [], 0, none⟩
     "abc" rfl (Or.inr ⟨_, rfl, Or.inr rfl⟩),
   fetch_not_configured
     ⟨.ok (some ⟨"", "https://api.example.com", some "w", true⟩), .ok respPdf, [], 0, none⟩
     "abc" rfl (Or.inr ⟨_, rfl, Or.inl rfl⟩)⟩

/-- C4: the listener delivers exactly one response per request (it is
a total function of the message and environment): an unexpected fault
thrown while handling is converted into a `{success:false, error:
message}` response, a request of unknown kind is answered with the
`Unknown message type` failure, and GET_CONFIG always resolves,
answering `null` when the storage read fails. -/
theorem relay_always_responds (msg : Msg) (env : Env) :
    (∀ e, env.fault = some e →
      onMessage msg env = ⟨.errorResp e, env.cache, 0⟩) ∧
    (env.fault = none → ∀ t, onMessage (.otherMsg t) env =
      ⟨.errorResp "Unknown message type", env.cache, 0⟩) ∧
    (env.fault = none → ∀ s, env.storage = .error s →
      onMessage .getConfigMsg env = ⟨.configResp none, env.cache, 0⟩) := by
  refine ⟨fun e he => ?_, fun hf t => ?_, fun hf s hs => ?_⟩
  · unfold onMessage
    rw [he]
  · unfold onMessage handleRequest
    rw [hf]
  · unfold onMessage handleRequest getConfig
    rw [hf, hs]

theorem relay_always_responds_witness :
    onMessage .getConfigMsg envFaulty = ⟨.errorResp "boom", envFaulty.cache, 0⟩ ∧
    onMessage (.otherMsg "SAVE_CONFIG") envNoConfig =
      ⟨.errorResp "Unknown message type", envNoConfig.cache, 0⟩ ∧
    onMessage .getConfigMsg envStorageFail =
      ⟨.configResp none, envStorageFail.cache, 0⟩ :=
  ⟨(relay_always_responds .getConfigMsg envFaulty).1 "boom" rfl,
   (relay_always_responds (.otherMsg "SAVE_CONFIG") envNoConfig).2.1 rfl "SAVE_CONFIG",
   (relay_always_responds .getConfigMsg envStorageFail).2.2 rfl "storage down" rfl⟩

/-- C1: if a call to the coordinator (`fetchPdfWithCache`) succeeds,
the cache afterwards holds an entry for the document whose bytes and
fileName are exactly those returned, and any second call within the
entry's 5-minute TTL window returns those cached bytes and fileName
with the cache unchanged and zero network fetches — at most one
network fetch per document per TTL window under sequential use. -/
theorem coordinator_cache_hit (fileId : String) (config : BriinkConfig) (cache : CacheMap)
    (now1 : Int) (net1 : Except String HttpResponse) (out : CoordOut)
    (hout : fetchPdfWithCache fileId config cache now1 net1 = out)
    (h : out.resp.success = true) :
    ∃ e, mapGet out.cache fileId = some e ∧
      out.resp.data = some e.data ∧ out.resp.fileName = some e.fileName ∧
      ∀ now2 net2, now2 - e.timestamp < CACHE_TTL →
        fetchPdfWithCache fileId config out.cache now2 net2 =
          ⟨⟨true, some e.data, some e.fileName, none⟩, out.cache, 0⟩ := by
  cases hm : mapGet cache fileId with
  | some cached =>
    by_cases ht : now1 - cached.timestamp < CACHE_TTL
    · have heq : fetchPdfWithCache fileId config cache now1 net1 =
          ⟨⟨true, some cached.data, some cached.fileName, none⟩, cache, 0⟩ := by
        unfold fetchPdfWithCache
        simp only [hm]
        split
        · rfl
        · rename_i hcond
          exact absurd ht hcond
      rw [heq] at hout
      subst hout
      refine ⟨cached, hm, rfl, rfl, fun now2 net2 h2 => ?_⟩
      unfold fetchPdfWithCache
      simp only [hm]
      split
      · rfl
      · rename_i hcond
        exact absurd h2 hcond
    · have heq : fetchPdfWithCache fileId config cache now1 net1 =
          fetchAndStore fileId config cache now1 net1 := by
        unfold fetchPdfWithCache
        simp only [hm]
        split
        · rename_i hcond
          exact absurd hcond ht
        · rfl
      rw [heq] at hout
      subst hout
      obtain ⟨d, fn, hresp, hcache⟩ := fetchAndStore_success fileId config cache now1 net1 h
      refine ⟨⟨d, fn, now1⟩, ?_, ?_, ?_, fun now2 net2 h2 => ?_⟩
      · rw [hcache]
        exact mapGet_mapSet_self cache fileId ⟨d, fn, now1⟩
      · rw [hresp]
      · rw [hresp]
      · unfold fetchPdfWithCache
        simp only [hcache, mapGet_mapSet_self]
        split
        · rfl
        · rename_i hcond
          exact absurd h2 hcond
  | none =>
    have heq : fetchPdfWithCache fileId config cache now1 net1 =
        fetchAndStore fileId config cache now1 net1 := by
      unfold fetchPdfWithCache
      simp only [hm]
    rw [heq] at hout
    subst hout
    obtain ⟨d, fn, hresp, hcache⟩ := fetchAndStore_success fileId config cache now1 net1 h
    refine ⟨⟨d, fn, now1⟩, ?_, ?_, ?_, fun now2 net2 h2 => ?_⟩
    · rw [hcache]
      exact mapGet_mapSet_self cache fileId ⟨d, fn, now1⟩
    · rw [hresp]
    · rw [hresp]
    · unfold fetchPdfWithCache
      simp only [hcache, mapGet_mapSet_self]
      split
      · rfl
      · rename_i hcond
        exact absurd h2 hcond

theorem coordinator_cache_hit_witness :
    (fetchPdfWithCache "abc" cfgSample [] 0 (.ok respPdf)).resp.success = true ∧
      (∃ e, mapGet (fetchPdfWithCache "abc" cfgSample [] 0 (.ok respPdf)).cache "abc" = some e ∧
        (fetchPdfWithCache "abc" cfgSample [] 0 (.ok respPdf)).resp.data = some e.data ∧
        (fetchPdfWithCache "abc" cfgSample [] 0 (.ok respPdf)).resp.fileName = some e.fileName ∧
        ∀ now2 net2, now2 - e.timestamp < CACHE_TTL →
          fetchPdfWithCache "abc" cfgSample
              (fetchPdfWithCache "abc" cfgSample [] 0 (.ok respPdf)).cache now2 net2 =
            ⟨⟨true, some e.data, some e.fileName, none⟩,
             (fetchPdfWithCache "abc" cfgSample [] 0 (.ok respPdf)).cache, 0⟩) :=
  ⟨by decide,
   coordinator_cache_hit "abc" cfgSample [] 0 (.ok respPdf) _ rfl (by decide)⟩

/-- C6: a call for a document whose cache entry has reached or passed
the 5-minute TTL does not return the stale entry: it issues exactly
one new network fetch, returns the fresh fetch result, and on success
replaces the cached entry with the new bytes, fileName and the current
timestamp. -/
theorem coordinator_ttl_expiry (fileId : String) (config : BriinkConfig) (cache : CacheMap)
    (now : Int) (net : Except String HttpResponse) (e : CacheEntry)
    (he : mapGet cache fileId = some e)
    (hexp : ¬(now - e.timestamp < CACHE_TTL))
    (hw : jsTruthyStr config.workspaceId = true) :
    (fetchPdfWithCache fileId config cache now net).netCalls = 1 ∧
    (fetchPdfWithCache fileId config cache now net).resp = (fetchPdf fileId config net).1 ∧
    ((fetchPdfWithCache fileId config cache now net).resp.success = true →
      ∃ d fn, (fetchPdfWithCache fileId config cache now net).resp =
          ⟨true, some d, some fn, none⟩ ∧
        mapGet (fetchPdfWithCache fileId config cache now net).cache fileId =
          some ⟨d, fn, now⟩) := by
  have heq : fetchPdfWithCache fileId config cache now net =
      fetchAndStore fileId config cache now net := by
    unfold fetchPdfWithCache
    simp only [he]
    split
    · rename_i hcond
      exact absurd hcond hexp
    · rfl
  rw [heq]
  refine ⟨?_, fetchAndStore_resp fileId config cache now net, fun hs => ?_⟩
  · rw [fetchAndStore_netCalls]
    exact fetchPdf_netCalls fileId config net hw
  · obtain ⟨d, fn, hresp, hcache⟩ := fetchAndStore_success fileId config cache now net hs
    refine ⟨d, fn, hresp, ?_⟩
    rw [hcache]
    exact mapGet_mapSet_self cache fileId ⟨d, fn, now⟩

theorem coordinator_ttl_expiry_witness :
    (fetchPdfWithCache "abc" cfgSample cacheOld 300000 (.ok respPdf)).netCalls = 1 ∧
    (fetchPdfWithCache "abc" cfgSample cacheOld 300000 (.ok respPdf)).resp =
      (fetchPdf "abc" cfgSample (.ok respPdf)).1 ∧
    ((fetchPdfWithCache "abc" cfgSample cacheOld 300000 (.ok respPdf)).resp.success = true →
      ∃ d fn, (fetchPdfWithCache "abc" cfgSample cacheOld 300000 (.ok respPdf)).resp =
          ⟨true, some d, some fn, none⟩ ∧
        mapGet (fetchPdfWithCache "abc" cfgSample cacheOld 300000 (.ok respPdf)).cache "abc" =
          some ⟨d, fn, 300000⟩) :=
  coordinator_ttl_expiry "abc" cfgSample cacheOld 300000 (.ok respPdf) entryOld
    (by decide) (by decide) (by decide)

end Briink
